import Mathlib

/-!
Shallow embedding of the liquidity-detection dashboard (src/app.py) and the
Binance connectivity test script (src/test.py).

Python floats are modelled as rationals.  Network effects (the exchange
client, the WebSocket) are modelled by outcome oracles: each call to the
exchange either raises an exception or returns data, and the oracle fixes
the outcome of each attempt.  Fallible computations return Option; a
Python function that can implicitly return None is modelled with Option
as well, with none standing for None.
-/

namespace LiquidityApp

/-- The three trading signals rendered by the app: Buy, Sell or Neutral. -/
inductive Signal where
  | Buy
  | Sell
  | Neutral
deriving DecidableEq

/-- Embedding of generate_signal (src/app.py lines 111-122).  Compares the
two liquidity percentages to the threshold exactly as the Python code does.
The try/except wrapper is dead in the embedding: well-typed comparisons on
rationals cannot raise. -/
def generate_signal (liquidity_bid_pct liquidity_ask_pct threshold : ℚ) : Signal :=
  if liquidity_bid_pct > threshold ∧ liquidity_ask_pct ≤ threshold then Signal.Buy
  else if liquidity_ask_pct > threshold ∧ liquidity_bid_pct ≤ threshold then Signal.Sell
  else Signal.Neutral

/-- Exchanges the roles of Buy and Sell, keeping Neutral fixed.  Used to
state the antisymmetry of generate_signal in its two percentage
arguments. -/
def swapSignal : Signal → Signal
  | Signal.Buy => Signal.Sell
  | Signal.Sell => Signal.Buy
  | Signal.Neutral => Signal.Neutral

/-- Embedding of calculate_liquidity (src/app.py lines 94-106).  An order
book level is a price/quantity pair.  Python list slicing bids[:levels] is
List.take; the guarded percentage mirrors the conditional expression
`x / avg * 100 if avg > 0 else 0`.  The try/except wrapper is dead in the
embedding: with well-typed level pairs neither the unpacking nor float()
can raise. -/
def calculate_liquidity (bids asks : List (ℚ × ℚ)) (levels : Nat)
    (avg_daily_volume : ℚ) : ℚ × ℚ × ℚ × ℚ :=
  let selected_bids := bids.take levels
  let selected_asks := asks.take levels
  let liquidity_bid := (selected_bids.map (fun level => level.2)).sum
  let liquidity_ask := (selected_asks.map (fun level => level.2)).sum
  let liquidity_bid_pct :=
    if avg_daily_volume > 0 then liquidity_bid / avg_daily_volume * 100 else 0
  let liquidity_ask_pct :=
    if avg_daily_volume > 0 then liquidity_ask / avg_daily_volume * 100 else 0
  (liquidity_bid, liquidity_ask, liquidity_bid_pct, liquidity_ask_pct)

/-- Outcome of one fetch attempt in fetch_avg_daily_volume: either the
client raised an exception somewhere in the attempt (err), or the call to
get_historical_klines returned a list of klines, each kline being the list
of its fields. -/
inductive FetchOutcome where
  | err
  | ok (klines : List (List ℚ))
deriving DecidableEq

/-- Embedding of the list comprehension
`[float(kline[5]) for kline in klines]` (src/app.py line 81): extracts the
6th field of every kline, failing (raising IndexError, hence none) as soon
as some kline has fewer than six fields. -/
def extractVolumes : List (List ℚ) → Option (List ℚ)
  | [] => some []
  | kline :: rest =>
    match kline.get? 5, extractVolumes rest with
    | some v, some vs => some (v :: vs)
    | _, _ => none

/-- One loop iteration of fetch_avg_daily_volume (src/app.py lines 75-84):
none when the attempt ends in the except branch (client error, empty kline
list, or a kline with fewer than six fields), otherwise the arithmetic mean
of the extracted volumes. -/
def attemptAvgVolume : FetchOutcome → Option ℚ
  | FetchOutcome.err => none
  | FetchOutcome.ok klines =>
    if klines.isEmpty then none
    else
      match extractVolumes klines with
      | none => none
      | some volumes => some (volumes.sum / (volumes.length : ℚ))

/-- Python range(lo, lo + n): the list lo, lo+1, ..., lo+n-1. -/
def pyRange (lo : Nat) : Nat → List Nat
  | 0 => []
  | n + 1 => lo :: pyRange (lo + 1) n

/-- The `for attempt in range(1, retries + 1)` loop body of
fetch_avg_daily_volume (src/app.py lines 74-92): return the average on the
first successful attempt; on failure sleep and retry while attempt is
strictly below retries, and return 0.0 on the last failed attempt.  Falling
off the loop (only possible when the range is empty) returns Python None,
modelled as none. -/
def fetchFor (oracle : Nat → FetchOutcome) (retries : Nat) : List Nat → Option ℚ
  | [] => none
  | attempt :: rest =>
    match attemptAvgVolume (oracle attempt) with
    | some avg_volume => some avg_volume
    | none =>
      if attempt < retries then fetchFor oracle retries rest
      else some 0

/-- Embedding of fetch_avg_daily_volume (src/app.py lines 72-92).  The
oracle gives the outcome of each numbered attempt; symbol, days and the
sleep delay do not influence the returned value and are omitted. -/
def fetch_avg_daily_volume (oracle : Nat → FetchOutcome) (retries : Nat := 3) : Option ℚ :=
  fetchFor oracle retries (pyRange 1 retries)

/-- The st.session_state fields touched by the order-book listener
(src/app.py lines 34-56 and 137-150). -/
structure SessionState where
  avg_daily_volume : ℚ
  bids : List (ℚ × ℚ)
  asks : List (ℚ × ℚ)
  signal : Signal
  liquidity_bid : ℚ
  liquidity_ask : ℚ
  liquidity_bid_pct : ℚ
  liquidity_ask_pct : ℚ
deriving DecidableEq

/-- One depth message received from the WebSocket.  res.get with a default
of the empty list is modelled by Option fields read with getD. -/
structure DepthMessage where
  bids : Option (List (ℚ × ℚ))
  asks : Option (List (ℚ × ℚ))
deriving DecidableEq

/-- The body of the `while True` loop of listen_order_book (src/app.py
lines 133-150): recompute the liquidity metrics from the message and the
cached average daily volume, derive the signal, and store the top-N bids,
top-N asks, signal and the four liquidity values in the session state. -/
def processDepthMessage (levels : Nat) (threshold : ℚ) (s : SessionState)
    (res : DepthMessage) : SessionState :=
  let bids := res.bids.getD []
  let asks := res.asks.getD []
  let r := calculate_liquidity bids asks levels s.avg_daily_volume
  { s with
    bids := bids.take levels
    asks := asks.take levels
    signal := generate_signal r.2.2.1 r.2.2.2 threshold
    liquidity_bid := r.1
    liquidity_ask := r.2.1
    liquidity_bid_pct := r.2.2.1
    liquidity_ask_pct := r.2.2.2 }

/-- Embedding of listen_order_book (src/app.py lines 124-154): the infinite
receive loop, truncated to an arbitrary finite prefix of received
messages and folded over the session state. -/
def listen_order_book (levels : Nat) (threshold : ℚ) (s : SessionState)
    (msgs : List DepthMessage) : SessionState :=
  msgs.foldl (processDepthMessage levels threshold) s

/-- Order book payload returned by client.get_order_book in src/test.py. -/
structure OrderBookData where
  lastUpdateId : Nat
  bids : List (ℚ × ℚ)
  asks : List (ℚ × ℚ)
deriving DecidableEq

/-- Account payload returned by client.get_account in src/test.py. -/
structure AccountInfo where
  balances : List (String × ℚ)
deriving DecidableEq

/-- Outcomes of the three exchange calls made by test_public_api:
constructing the client, pinging, and fetching the order book.  Each is an
exception message or a result. -/
structure PublicApiEnv where
  create_client : Except String Unit
  ping : Except String Unit
  get_order_book : Except String OrderBookData

/-- Outcomes of the three exchange calls made by test_authenticated_api
with the supplied key pair: constructing the client, pinging, and fetching
the account information. -/
structure AuthApiEnv where
  create_client : Except String Unit
  ping : Except String Unit
  get_account : Except String AccountInfo

/-- The dictionary returned by the test helpers in src/test.py: status
"success" carrying the fetched data, or status "error" carrying the
exception text. -/
inductive ApiTestResult (α : Type) where
  | success (data : α)
  | error (message : String)
deriving DecidableEq

/-- Embedding of test_public_api (src/test.py lines 11-18): run the three
calls in order inside try, and turn the first exception into an error
result. -/
def test_public_api (env : PublicApiEnv) : ApiTestResult OrderBookData :=
  match env.create_client with
  | Except.error e => ApiTestResult.error e
  | Except.ok _ =>
    match env.ping with
    | Except.error e => ApiTestResult.error e
    | Except.ok _ =>
      match env.get_order_book with
      | Except.error e => ApiTestResult.error e
      | Except.ok order_book => ApiTestResult.success order_book

/-- Embedding of test_authenticated_api (src/test.py lines 43-50): same
shape as the public test, fetching the account information instead. -/
def test_authenticated_api (env : AuthApiEnv) : ApiTestResult AccountInfo :=
  match env.create_client with
  | Except.error e => ApiTestResult.error e
  | Except.ok _ =>
    match env.ping with
    | Except.error e => ApiTestResult.error e
    | Except.ok _ =>
      match env.get_account with
      | Except.error e => ApiTestResult.error e
      | Except.ok account_info => ApiTestResult.success account_info

/-! ### Helper lemmas -/

lemma get?_six_fields (k : List ℚ) (hk : 5 < k.length) :
    k.get? 5 = some (k.getD 5 0) := by
  rw [List.get?_eq_getElem?, List.getElem?_eq_getElem hk, List.getD_eq_getElem k 0 hk]

lemma extractVolumes_eq_map (klines : List (List ℚ))
    (h : ∀ k ∈ klines, 5 < k.length) :
    extractVolumes klines = some (klines.map (fun k => k.getD 5 0)) := by
  induction klines with
  | nil => rfl
  | cons k rest ih =>
    have hk : 5 < k.length := h k (by simp)
    have hrest := ih (fun x hx => h x (by simp [hx]))
    show (match k.get? 5, extractVolumes rest with
      | some v, some vs => some (v :: vs)
      | _, _ => none) = _
    rw [get?_six_fields k hk, hrest]
    rfl

lemma attemptAvgVolume_ok (klines : List (List ℚ)) (hne : klines ≠ [])
    (h : ∀ k ∈ klines, 5 < k.length) :
    attemptAvgVolume (FetchOutcome.ok klines) =
      some ((klines.map (fun k => k.getD 5 0)).sum / (klines.length : ℚ)) := by
  have hempty : klines.isEmpty = false := by
    simpa [List.isEmpty_iff] using hne
  simp [attemptAvgVolume, hempty, extractVolumes_eq_map klines h]

lemma fetchFor_cons_some (oracle : Nat → FetchOutcome) (retries attempt : Nat)
    (rest : List Nat) (v : ℚ) (h : attemptAvgVolume (oracle attempt) = some v) :
    fetchFor oracle retries (attempt :: rest) = some v := by
  have hstep : fetchFor oracle retries (attempt :: rest)
      = match attemptAvgVolume (oracle attempt) with
        | some avg_volume => some avg_volume
        | none => if attempt < retries then fetchFor oracle retries rest
                  else some 0 := rfl
  rw [hstep, h]

lemma fetchFor_cons_none (oracle : Nat → FetchOutcome) (retries attempt : Nat)
    (rest : List Nat) (h : attemptAvgVolume (oracle attempt) = none) :
    fetchFor oracle retries (attempt :: rest) =
      if attempt < retries then fetchFor oracle retries rest else some 0 := by
  have hstep : fetchFor oracle retries (attempt :: rest)
      = match attemptAvgVolume (oracle attempt) with
        | some avg_volume => some avg_volume
        | none => if attempt < retries then fetchFor oracle retries rest
                  else some 0 := rfl
  rw [hstep, h]

lemma fetchFor_all_fail (oracle : Nat → FetchOutcome) (retries : Nat) :
    ∀ n lo, 1 ≤ n → lo + n = retries + 1 →
      (∀ a, lo ≤ a → a ≤ retries → attemptAvgVolume (oracle a) = none) →
      fetchFor oracle retries (pyRange lo n) = some 0 := by
  intro n
  induction n with
  | zero => intro lo h1 _ _; omega
  | succ m ih =>
    intro lo _ hsum hfail
    have hfl : attemptAvgVolume (oracle lo) = none :=
      hfail lo le_rfl (by omega)
    cases m with
    | zero =>
      have hlo : lo = retries := by omega
      rw [show pyRange lo 1 = [lo] from rfl,
        fetchFor_cons_none oracle retries lo [] hfl,
        if_neg (by omega : ¬ lo < retries)]
    | succ p =>
      have hlt : lo < retries := by omega
      have hrec := ih (lo + 1) (by omega) (by omega)
        (fun a ha h2 => hfail a (by omega) h2)
      rw [show pyRange lo (p + 1 + 1) = lo :: pyRange (lo + 1) (p + 1) from rfl,
        fetchFor_cons_none oracle retries lo _ hfl, if_pos hlt]
      exact hrec

lemma fetchFor_first_success (oracle : Nat → FetchOutcome) (retries : Nat) :
    ∀ n lo i v, lo ≤ i → i < lo + n → lo + n = retries + 1 →
      attemptAvgVolume (oracle i) = some v →
      (∀ a, lo ≤ a → a < i → attemptAvgVolume (oracle a) = none) →
      fetchFor oracle retries (pyRange lo n) = some v := by
  intro n
  induction n with
  | zero => intro lo i v h1 h2 _ _ _; omega
  | succ m ih =>
    intro lo i v hle hlt hsum hsucc hfail
    rcases eq_or_lt_of_le hle with heq | hlo_lt
    · subst heq
      rw [show pyRange lo (m + 1) = lo :: pyRange (lo + 1) m from rfl]
      exact fetchFor_cons_some oracle retries lo _ v hsucc
    · have hfl : attemptAvgVolume (oracle lo) = none :=
        hfail lo le_rfl hlo_lt
      have hlo_rt : lo < retries := by omega
      have hrec := ih (lo + 1) i v (by omega) (by omega) (by omega) hsucc
        (fun a h1 h2 => hfail a (by omega) h2)
      rw [show pyRange lo (m + 1) = lo :: pyRange (lo + 1) m from rfl,
        fetchFor_cons_none oracle retries lo _ hfl, if_pos hlo_rt]
      exact hrec

lemma listen_avg (levels : Nat) (threshold : ℚ) :
    ∀ (msgs : List DepthMessage) (s : SessionState),
      (listen_order_book levels threshold s msgs).avg_daily_volume
        = s.avg_daily_volume := by
  intro msgs
  induction msgs with
  | nil => intro s; rfl
  | cons m rest ih =>
    intro s
    have h1 : listen_order_book levels threshold s (m :: rest)
        = listen_order_book levels threshold
            (processDepthMessage levels threshold s m) rest := rfl
    rw [h1, ih]
    rfl

/-! ### Claim theorems -/

/-- C1: generate_signal is a three-valued classification: it returns Buy
exactly when the bid-side percentage is strictly above the threshold and
the ask-side percentage is at most the threshold, Sell exactly in the
mirrored case, Neutral in every other case (including when both sides
exceed the threshold), and its result is always one of the three values. -/
theorem generate_signal_three_valued (b a t : ℚ) :
    (generate_signal b a t = Signal.Buy ↔ (b > t ∧ a ≤ t))
    ∧ (generate_signal b a t = Signal.Sell ↔ (a > t ∧ b ≤ t))
    ∧ (generate_signal b a t = Signal.Neutral ↔ (¬(b > t ∧ a ≤ t) ∧ ¬(a > t ∧ b ≤ t)))
    ∧ (generate_signal b a t = Signal.Buy ∨ generate_signal b a t = Signal.Sell
        ∨ generate_signal b a t = Signal.Neutral) := by
  rcases le_or_lt b t with hb | hb <;> rcases le_or_lt a t with ha | ha
  · simp [generate_signal, hb, ha, hb.not_lt, ha.not_lt]
  · simp [generate_signal, hb, ha, hb.not_lt, ha.not_le]
  · simp [generate_signal, hb, ha, hb.not_le, ha.not_lt]
  · simp [generate_signal, hb, ha, hb.not_le, ha.not_le]

/-- C1 witness: at bid percentage 2, ask percentage 0 and threshold 1 the
classification yields a Buy signal. -/
theorem generate_signal_three_valued_witness :
    generate_signal 2 0 1 = Signal.Buy :=
  (generate_signal_three_valued 2 0 1).1.mpr (by norm_num)

/-- C2: calculate_liquidity returns as bid liquidity the sum of the
quantities of the first N bid levels and as ask liquidity the sum of the
quantities of the first N ask levels, summing all levels of a side when
that side has no more than N levels. -/
theorem calculate_liquidity_topN (bids asks : List (ℚ × ℚ)) (levels : Nat)
    (avg : ℚ) :
    (calculate_liquidity bids asks levels avg).1
        = ((bids.take levels).map (fun level => level.2)).sum
    ∧ (calculate_liquidity bids asks levels avg).2.1
        = ((asks.take levels).map (fun level => level.2)).sum
    ∧ (bids.length ≤ levels →
        (calculate_liquidity bids asks levels avg).1
          = (bids.map (fun level => level.2)).sum)
    ∧ (asks.length ≤ levels →
        (calculate_liquidity bids asks levels avg).2.1
          = (asks.map (fun level => level.2)).sum) := by
  refine ⟨rfl, rfl, ?_, ?_⟩ <;> intro h <;>
    simp [calculate_liquidity, List.take_of_length_le h]

/-- C2 witness: two bid levels with quantities 2 and 4 and a level count of
5 give bid liquidity 2 + 4. -/
theorem calculate_liquidity_topN_witness :
    List.length [((1:ℚ), (2:ℚ)), (3, 4)] ≤ 5
    ∧ (calculate_liquidity [((1:ℚ), (2:ℚ)), (3, 4)] [((5:ℚ), (6:ℚ))] 5 0).1
        = ([((1:ℚ), (2:ℚ)), (3, 4)].map (fun level => level.2)).sum :=
  ⟨by decide,
    (calculate_liquidity_topN [((1:ℚ), (2:ℚ)), (3, 4)] [((5:ℚ), (6:ℚ))] 5 0).2.2.1
      (by decide)⟩

/-- C3: when the cached average daily volume is strictly positive, each
returned liquidity percentage is the corresponding returned liquidity
divided by the average daily volume, times 100. -/
theorem calculate_liquidity_pct (bids asks : List (ℚ × ℚ)) (levels : Nat)
    (avg : ℚ) (h : 0 < avg) :
    (calculate_liquidity bids asks levels avg).2.2.1
        = (calculate_liquidity bids asks levels avg).1 / avg * 100
    ∧ (calculate_liquidity bids asks levels avg).2.2.2
        = (calculate_liquidity bids asks levels avg).2.1 / avg * 100 := by
  simp [calculate_liquidity, h]

/-- C3 witness: with average daily volume 4 and a single bid of quantity 2,
the bid percentage is the bid liquidity divided by 4 times 100. -/
theorem calculate_liquidity_pct_witness :
    (0:ℚ) < 4
    ∧ (calculate_liquidity [((1:ℚ), (2:ℚ))] [] 1 4).2.2.1
        = (calculate_liquidity [((1:ℚ), (2:ℚ))] [] 1 4).1 / 4 * 100 :=
  ⟨by norm_num, (calculate_liquidity_pct [((1:ℚ), (2:ℚ))] [] 1 4 (by norm_num)).1⟩

/-- C7: when the average daily volume is not positive, calculate_liquidity
still returns the summed bid and ask liquidity unchanged, and both
percentages are exactly 0 (the division is guarded off). -/
theorem calculate_liquidity_nonpos_avg (bids asks : List (ℚ × ℚ))
    (levels : Nat) (avg : ℚ) (h : avg ≤ 0) :
    calculate_liquidity bids asks levels avg =
      (((bids.take levels).map (fun level => level.2)).sum,
        ((asks.take levels).map (fun level => level.2)).sum, 0, 0) := by
  simp [calculate_liquidity, h.not_lt]

/-- C7 witness: with average daily volume 0 the sums are returned and both
percentages are 0. -/
theorem calculate_liquidity_nonpos_avg_witness :
    (0:ℚ) ≤ 0
    ∧ calculate_liquidity [((1:ℚ), (2:ℚ)), (3, 4)] [((5:ℚ), (6:ℚ))] 1 0 =
        ((([((1:ℚ), (2:ℚ)), (3, 4)].take 1).map (fun level => level.2)).sum,
          (([((5:ℚ), (6:ℚ))].take 1).map (fun level => level.2)).sum, 0, 0) :=
  ⟨le_refl 0,
    calculate_liquidity_nonpos_avg [((1:ℚ), (2:ℚ)), (3, 4)] [((5:ℚ), (6:ℚ))] 1 0
      (le_refl 0)⟩

/-- C8: generate_signal is antisymmetric in its two percentage arguments:
swapping them exchanges Buy and Sell and fixes Neutral; in particular when
both percentages exceed the threshold the result is Neutral. -/
theorem generate_signal_swap (b a t : ℚ) :
    generate_signal a b t = swapSignal (generate_signal b a t)
    ∧ (b > t → a > t → generate_signal b a t = Signal.Neutral) := by
  rcases le_or_lt b t with hb | hb <;> rcases le_or_lt a t with ha | ha
  · simp [generate_signal, swapSignal, hb, ha, hb.not_lt, ha.not_lt]
  · simp [generate_signal, swapSignal, hb, ha, hb.not_lt, ha.not_le]
  · simp [generate_signal, swapSignal, hb, ha, hb.not_le, ha.not_lt]
  · simp [generate_signal, swapSignal, hb, ha, hb.not_le, ha.not_le]

/-- C8 witness: at bid 2, ask 0 and threshold 1, swapping the arguments
turns the Buy into a Sell, and the both-exceed clause holds vacuously. -/
theorem generate_signal_swap_witness :
    generate_signal 0 2 1 = swapSignal (generate_signal 2 0 1)
    ∧ ((2:ℚ) > 1 → (0:ℚ) > 1 → generate_signal 2 0 1 = Signal.Neutral) :=
  generate_signal_swap 2 0 1

/-- C4: the listener loop processes each received depth message by
recomputing the liquidity metrics from that message with
calculate_liquidity and the cached average daily volume, deriving the
signal with generate_signal, and storing top-N bids, top-N asks, signal
and the four liquidity values in the session state; after any batch of
messages the state holds the values of the last one, and the cached
average is untouched. -/
theorem listen_order_book_updates_state (levels : Nat) (threshold : ℚ)
    (ms : List DepthMessage) (m : DepthMessage) (s : SessionState) :
    (listen_order_book levels threshold s (ms ++ [m])).avg_daily_volume
        = s.avg_daily_volume
    ∧ (listen_order_book levels threshold s (ms ++ [m])).bids
        = (m.bids.getD []).take levels
    ∧ (listen_order_book levels threshold s (ms ++ [m])).asks
        = (m.asks.getD []).take levels
    ∧ (listen_order_book levels threshold s (ms ++ [m])).signal
        = generate_signal
            (calculate_liquidity (m.bids.getD []) (m.asks.getD []) levels
              s.avg_daily_volume).2.2.1
            (calculate_liquidity (m.bids.getD []) (m.asks.getD []) levels
              s.avg_daily_volume).2.2.2 threshold
    ∧ (listen_order_book levels threshold s (ms ++ [m])).liquidity_bid
        = (calculate_liquidity (m.bids.getD []) (m.asks.getD []) levels
            s.avg_daily_volume).1
    ∧ (listen_order_book levels threshold s (ms ++ [m])).liquidity_ask
        = (calculate_liquidity (m.bids.getD []) (m.asks.getD []) levels
            s.avg_daily_volume).2.1
    ∧ (listen_order_book levels threshold s (ms ++ [m])).liquidity_bid_pct
        = (calculate_liquidity (m.bids.getD []) (m.asks.getD []) levels
            s.avg_daily_volume).2.2.1
    ∧ (listen_order_book levels threshold s (ms ++ [m])).liquidity_ask_pct
        = (calculate_liquidity (m.bids.getD []) (m.asks.getD []) levels
            s.avg_daily_volume).2.2.2 := by
  have hsplit : listen_order_book levels threshold s (ms ++ [m])
      = processDepthMessage levels threshold
          (listen_order_book levels threshold s ms) m := by
    simp [listen_order_book, List.foldl_append]
  have havg := listen_avg levels threshold ms s
  rw [hsplit]
  refine ⟨?_, ?_, ?_, ?_, ?_, ?_, ?_, ?_⟩ <;>
    simp [processDepthMessage, havg]

/-- C4 witness: a single message on a fresh state stores its own top-N
levels and metrics. -/
theorem listen_order_book_updates_state_witness :
    (listen_order_book 1 1 ⟨4, [], [], Signal.Neutral, 0, 0, 0, 0⟩
        ([] ++ [⟨some [((1:ℚ), (5:ℚ))], some [((2:ℚ), (3:ℚ))]⟩])).signal
      = generate_signal
          (calculate_liquidity
            ((some [((1:ℚ), (5:ℚ))]).getD []) ((some [((2:ℚ), (3:ℚ))]).getD [])
            1 (4:ℚ)).2.2.1
          (calculate_liquidity
            ((some [((1:ℚ), (5:ℚ))]).getD []) ((some [((2:ℚ), (3:ℚ))]).getD [])
            1 (4:ℚ)).2.2.2 1 :=
  (listen_order_book_updates_state 1 1 []
      ⟨some [((1:ℚ), (5:ℚ))], some [((2:ℚ), (3:ℚ))]⟩
      ⟨4, [], [], Signal.Neutral, 0, 0, 0, 0⟩).2.2.2.1

/-- C5: when the first attempt succeeds with a non-empty list of klines,
each carrying at least six fields, fetch_avg_daily_volume returns the
arithmetic mean of the 6th field (the volume) of the fetched klines. -/
theorem fetch_avg_daily_volume_first_success (oracle : Nat → FetchOutcome)
    (retries : Nat) (klines : List (List ℚ)) (hr : 1 ≤ retries)
    (h1 : oracle 1 = FetchOutcome.ok klines) (hne : klines ≠ [])
    (hlen : ∀ k ∈ klines, 5 < k.length) :
    fetch_avg_daily_volume oracle retries =
      some ((klines.map (fun k => k.getD 5 0)).sum / (klines.length : ℚ)) := by
  obtain ⟨n, rfl⟩ : ∃ n, retries = n + 1 :=
    ⟨retries - 1, (Nat.succ_pred_eq_of_pos hr).symm⟩
  have hsucc : attemptAvgVolume (oracle 1)
      = some ((klines.map (fun k => k.getD 5 0)).sum / (klines.length : ℚ)) := by
    rw [h1]
    exact attemptAvgVolume_ok klines hne hlen
  show fetchFor oracle (n + 1) (pyRange 1 (n + 1)) = _
  rw [show pyRange 1 (n + 1) = 1 :: pyRange 2 n from rfl]
  exact fetchFor_cons_some oracle (n + 1) 1 _ _ hsucc

/-- C5 witness: two klines with volumes 6 and 10 average to 8. -/
theorem fetch_avg_daily_volume_first_success_witness :
    fetch_avg_daily_volume
        (fun _ => FetchOutcome.ok [[(1:ℚ), 2, 3, 4, 5, 6], [0, 0, 0, 0, 0, 10]]) 3
      = some ((([[(1:ℚ), 2, 3, 4, 5, 6], [0, 0, 0, 0, 0, 10]].map
          (fun k => k.getD 5 0)).sum) /
          ((List.length [[(1:ℚ), 2, 3, 4, 5, 6], [0, 0, 0, 0, 0, 10]] : ℕ) : ℚ)) :=
  fetch_avg_daily_volume_first_success
    (fun _ => FetchOutcome.ok [[(1:ℚ), 2, 3, 4, 5, 6], [0, 0, 0, 0, 0, 10]]) 3
    [[(1:ℚ), 2, 3, 4, 5, 6], [0, 0, 0, 0, 0, 10]]
    (by decide) rfl (by decide) (by decide)

/-- C6 counterexample: a first attempt that succeeds with a single kline of
volume 0 makes fetch_avg_daily_volume return 0.0 even though not every
attempt failed, so a 0.0 return does not imply that every attempt
failed. -/
theorem fetch_zero_without_any_failure :
    fetch_avg_daily_volume (fun _ => FetchOutcome.ok [[(0:ℚ), 0, 0, 0, 0, 0]]) 3
        = some 0
    ∧ ¬ attemptAvgVolume
        ((fun _ => FetchOutcome.ok [[(0:ℚ), 0, 0, 0, 0, 0]]) 1) = none := by
  have h1 : extractVolumes [[(0:ℚ), 0, 0, 0, 0, 0]] = some [0] := rfl
  have hsucc : attemptAvgVolume (FetchOutcome.ok [[(0:ℚ), 0, 0, 0, 0, 0]])
      = some 0 := by
    simp [attemptAvgVolume, h1]
  refine ⟨?_, ?_⟩
  · show fetchFor (fun _ => FetchOutcome.ok [[(0:ℚ), 0, 0, 0, 0, 0]]) 3
        (pyRange 1 3) = some 0
    rw [show pyRange 1 3 = 1 :: pyRange 2 2 from rfl]
    exact fetchFor_cons_some _ 3 1 _ 0 hsucc
  · rw [hsucc]
    simp

/-- C6 amended: fetch_avg_daily_volume attempts the fetch up to retries
times; an empty kline response counts as a failure; it returns the
computed average on the first successful attempt; when retries is at least
1 and every attempt fails it returns 0.0 (but the computed average of a
successful attempt may itself be 0.0); with retries = 0 it returns
None. -/
theorem fetch_retry_behaviour (oracle : Nat → FetchOutcome) (retries : Nat) :
    fetch_avg_daily_volume oracle 0 = none
    ∧ (1 ≤ retries →
        (∀ a, 1 ≤ a → a ≤ retries → attemptAvgVolume (oracle a) = none) →
        fetch_avg_daily_volume oracle retries = some 0)
    ∧ (∀ i v, 1 ≤ i → i ≤ retries →
        attemptAvgVolume (oracle i) = some v →
        (∀ a, 1 ≤ a → a < i → attemptAvgVolume (oracle a) = none) →
        fetch_avg_daily_volume oracle retries = some v) := by
  refine ⟨rfl, ?_, ?_⟩
  · intro hr hfail
    show fetchFor oracle retries (pyRange 1 retries) = some 0
    exact fetchFor_all_fail oracle retries retries 1 hr (by omega) hfail
  · intro i v h1 h2 hsucc hfail
    show fetchFor oracle retries (pyRange 1 retries) = some v
    exact fetchFor_first_success oracle retries retries 1 i v h1 (by omega)
      (by omega) hsucc hfail

/-- C6 witness: with every attempt raising, two retries end in 0.0, and a
first-attempt success with volume 4 is returned directly. -/
theorem fetch_retry_behaviour_witness :
    fetch_avg_daily_volume (fun _ => FetchOutcome.err) 2 = some 0
    ∧ fetch_avg_daily_volume
        (fun _ => FetchOutcome.ok [[(1:ℚ), 1, 1, 1, 1, 4]]) 3 = some 4 :=
  ⟨(fetch_retry_behaviour (fun _ => FetchOutcome.err) 2).2.1 (by decide)
      (fun a _ _ => rfl),
    (fetch_retry_behaviour (fun _ => FetchOutcome.ok [[(1:ℚ), 1, 1, 1, 1, 4]]) 3).2.2
      1 4 (by decide) (by decide)
      (by
        have h1 : extractVolumes [[(1:ℚ), 1, 1, 1, 1, 4]] = some [4] := rfl
        simp [attemptAvgVolume, h1])
      (fun a ha hlt => absurd (lt_of_le_of_lt ha hlt) (lt_irrefl 1))⟩

/-- C9: the two connectivity test helpers never propagate an exception:
each always yields either a success result carrying the data fetched by
the final call, or an error result carrying the text of the exception that
one of the three calls raised. -/
theorem api_tests_never_raise (envP : PublicApiEnv) (envA : AuthApiEnv) :
    ((∃ ob, test_public_api envP = ApiTestResult.success ob
          ∧ envP.get_order_book = Except.ok ob)
      ∨ (∃ msg, test_public_api envP = ApiTestResult.error msg
          ∧ (envP.create_client = Except.error msg
              ∨ envP.ping = Except.error msg
              ∨ envP.get_order_book = Except.error msg)))
    ∧ ((∃ ai, test_authenticated_api envA = ApiTestResult.success ai
          ∧ envA.get_account = Except.ok ai)
      ∨ (∃ msg, test_authenticated_api envA = ApiTestResult.error msg
          ∧ (envA.create_client = Except.error msg
              ∨ envA.ping = Except.error msg
              ∨ envA.get_account = Except.error msg))) := by
  constructor
  · rcases hc : envP.create_client with e | u
    · exact Or.inr ⟨e, by simp [test_public_api, hc], Or.inl rfl⟩
    · rcases hp : envP.ping with e | u
      · exact Or.inr ⟨e, by simp [test_public_api, hc, hp], Or.inr (Or.inl rfl)⟩
      · rcases ho : envP.get_order_book with e | ob
        · exact Or.inr ⟨e, by simp [test_public_api, hc, hp, ho],
            Or.inr (Or.inr rfl)⟩
        · exact Or.inl ⟨ob, by simp [test_public_api, hc, hp, ho], rfl⟩
  · rcases hc : envA.create_client with e | u
    · exact Or.inr ⟨e, by simp [test_authenticated_api, hc], Or.inl rfl⟩
    · rcases hp : envA.ping with e | u
      · exact Or.inr ⟨e, by simp [test_authenticated_api, hc, hp],
          Or.inr (Or.inl rfl)⟩
      · rcases ha : envA.get_account with e | ai
        · exact Or.inr ⟨e, by simp [test_authenticated_api, hc, hp, ha],
            Or.inr (Or.inr rfl)⟩
        · exact Or.inl ⟨ai, by simp [test_authenticated_api, hc, hp, ha], rfl⟩

/-- C9 witness: a fully successful public environment and an authenticated
environment whose ping raises both land in the stated shape. -/
theorem api_tests_never_raise_witness :
    ((∃ ob, test_public_api
            ⟨Except.ok (), Except.ok (), Except.ok ⟨7, [], []⟩⟩
          = ApiTestResult.success ob
          ∧ (⟨Except.ok (), Except.ok (), Except.ok ⟨7, [], []⟩⟩
              : PublicApiEnv).get_order_book = Except.ok ob)
      ∨ (∃ msg, test_public_api
            ⟨Except.ok (), Except.ok (), Except.ok ⟨7, [], []⟩⟩
          = ApiTestResult.error msg
          ∧ ((⟨Except.ok (), Except.ok (), Except.ok ⟨7, [], []⟩⟩
              : PublicApiEnv).create_client = Except.error msg
              ∨ (⟨Except.ok (), Except.ok (), Except.ok ⟨7, [], []⟩⟩
                  : PublicApiEnv).ping = Except.error msg
              ∨ (⟨Except.ok (), Except.ok (), Except.ok ⟨7, [], []⟩⟩
                  : PublicApiEnv).get_order_book = Except.error msg)))
    ∧ ((∃ ai, test_authenticated_api
            ⟨Except.ok (), Except.error "timeout", Except.ok ⟨[]⟩⟩
          = ApiTestResult.success ai
          ∧ (⟨Except.ok (), Except.error "timeout", Except.ok ⟨[]⟩⟩
              : AuthApiEnv).get_account = Except.ok ai)
      ∨ (∃ msg, test_authenticated_api
            ⟨Except.ok (), Except.error "timeout", Except.ok ⟨[]⟩⟩
          = ApiTestResult.error msg
          ∧ ((⟨Except.ok (), Except.error "timeout", Except.ok ⟨[]⟩⟩
              : AuthApiEnv).create_client = Except.error msg
              ∨ (⟨Except.ok (), Except.error "timeout", Except.ok ⟨[]⟩⟩
                  : AuthApiEnv).ping = Except.error msg
              ∨ (⟨Except.ok (), Except.error "timeout", Except.ok ⟨[]⟩⟩
                  : AuthApiEnv).get_account = Except.error msg))) :=
  api_tests_never_raise
    ⟨Except.ok (), Except.ok (), Except.ok ⟨7, [], []⟩⟩
    ⟨Except.ok (), Except.error "timeout", Except.ok ⟨[]⟩⟩

end LiquidityApp
